import Mathlib

/-!
Verification development for the BookOps Sierra API session wrapper
(file bookops_sierra_api/session.py).

The Python class SierraSession is shallowly embedded as pure Lean
functions.  Dynamically typed Python arguments are modelled by `PyVal`,
exceptions by `PyError` inside `Except`, the wall clock by an explicit
`PyDate` parameter, the HTTP transport by an oracle function of type
`HttpRequest → HttpResponse`, and the OAuth2 token exchange performed by
the requests-oauthlib library by an explicit `TokenFetchResult` outcome
parameter.  Every method additionally returns the list of outbound HTTP
requests it issued (its network trace), so that statements such as "no
network call is attempted" and "issues exactly this request" are
provable.
-/

/-- Model of a Python runtime value, restricted to the types this client
handles: None, str, int and bool. -/
inductive PyVal where
  | none : PyVal
  | str (s : String) : PyVal
  | int (n : Int) : PyVal
  | bool (b : Bool) : PyVal
deriving DecidableEq, Repr

/-- Python check `type(v) is str`, used by the constructor. -/
def typeIsStr : PyVal → Bool
  | .str _ => true
  | _ => false

/-- Python check `isinstance(v, str)`; in the value universe modelled
here this coincides with the exact type check. -/
def pyIsStr : PyVal → Bool
  | .str _ => true
  | _ => false

/-- Python check `isinstance(v, int)`.  In Python, bool is a subclass of
int, so booleans pass the check. -/
def pyIsInt : PyVal → Bool
  | .int _ => true
  | .bool _ => true
  | _ => false

/-- Projection of a `PyVal` known to be a string. -/
def pyAsStr : PyVal → String
  | .str s => s
  | _ => ""

/-- Python `str(v)` as performed by f-string interpolation. -/
def pyStr : PyVal → String
  | .none => "None"
  | .str s => s
  | .int n => toString n
  | .bool b => if b then "True" else "False"

/-- Exceptions the embedded code can signal.  The constructors
`typeError` and `valueError` are the argument-validation failures (the
InvalidArgument taxon of the spec); `missingTokenError` models
MissingTokenError of oauthlib; `connectionError` models ConnectionError
of the requests library. -/
inductive PyError where
  | typeError (msg : String) : PyError
  | valueError (msg : String) : PyError
  | missingTokenError : PyError
  | connectionError : PyError
deriving DecidableEq, Repr

/-- Whether the error belongs to the InvalidArgument taxon of the spec:
a synchronous validation failure, i.e. a TypeError or a ValueError. -/
def PyError.isInvalidArgument : PyError → Bool
  | .typeError _ => true
  | .valueError _ => true
  | _ => false

/-! ### URL joining

Model of urllib.parse.urljoin for the reference shapes this client
builds: an absolute base URL joined with a relative path reference (no
query, no fragment, no dot segments).  Implemented over `List Char` with
structural recursion so that it evaluates inside the kernel. -/

/-- Splits the list at the first occurrence of the three characters
colon-slash-slash, returning the part before and the part after. -/
def findSchemeSep : List Char → Option (List Char × List Char)
  | [] => Option.none
  | ':' :: '/' :: '/' :: rest => some ([], rest)
  | c :: rest =>
    match findSchemeSep rest with
    | some (before, tail) => some (c :: before, tail)
    | Option.none => Option.none

/-- Longest prefix of the list that ends with a slash (the RFC 3986
merge operation keeps the base path up to its last slash). -/
def lastSlashSplit : List Char → Option (List Char)
  | [] => Option.none
  | c :: rest =>
    match lastSlashSplit rest with
    | some p => some (c :: p)
    | Option.none => if c = '/' then some [c] else Option.none

/-- True when a colon occurs before any slash, i.e. the reference
carries its own scheme and is treated as absolute. -/
def schemeColonBeforeSlash : List Char → Bool
  | [] => false
  | c :: rest => if c = '/' then false else if c = ':' then true else schemeColonBeforeSlash rest

/-- True when the string starts with a slash. -/
def strStartsWithSlash (s : String) : Bool :=
  match s.data with
  | '/' :: _ => true
  | _ => false

/-- The prefix a relative path reference gets attached to: the base up
to (and including) the last slash of its path component. -/
def joinBase (base : String) : String :=
  match findSchemeSep base.data with
  | Option.none =>
    match lastSlashSplit base.data with
    | some p => String.mk p
    | Option.none => ""
  | some (before, tail) =>
    match lastSlashSplit tail with
    | some p => String.mk (before ++ (':' :: '/' :: '/' :: p))
    | Option.none => base ++ "/"

/-- Model of urllib.parse.urljoin restricted to the shapes used by this
client. -/
def urljoin (base rel : String) : String :=
  if rel.data = [] then base
  else if schemeColonBeforeSlash rel.data then rel
  else if strStartsWithSlash rel then
    (match findSchemeSep base.data with
     | some (before, tail) =>
       String.mk (before ++ (':' :: '/' :: '/' :: tail.takeWhile (fun c => c ≠ '/')))
     | Option.none => "") ++ rel
  else joinBase base ++ rel

/-! ### Calendar dates

Model of datetime.date and datetime.strptime as far as the client uses
them: Gregorian day arithmetic for today plus timedelta(days=14),
strftime with format %Y-%m-%d, and strptime validation against the same
format. -/

/-- A Gregorian calendar date, as datetime.date. -/
structure PyDate where
  year : Nat
  month : Nat
  day : Nat
deriving DecidableEq, Repr

def isLeapYear (y : Nat) : Bool :=
  y % 4 = 0 && (y % 100 ≠ 0 || y % 400 = 0)

def daysInMonth (y m : Nat) : Nat :=
  if m = 2 then (if isLeapYear y then 29 else 28)
  else if m = 4 ∨ m = 6 ∨ m = 9 ∨ m = 11 then 30
  else 31

/-- The calendar successor of a date. -/
def nextDay (d : PyDate) : PyDate :=
  if d.day < daysInMonth d.year d.month then { d with day := d.day + 1 }
  else if d.month < 12 then { year := d.year, month := d.month + 1, day := 1 }
  else { year := d.year + 1, month := 1, day := 1 }

/-- Date plus a timedelta of n days. -/
def addDays : PyDate → Nat → PyDate
  | d, 0 => d
  | d, n + 1 => addDays (nextDay d) n

/-- Decimal rendering of n, left-padded with zeros to width w. -/
def padZeros (w n : Nat) : String :=
  let s := toString n
  if s.length < w then String.mk (List.replicate (w - s.length) '0') ++ s else s

/-- Formatting a date with strftime format %Y-%m-%d. -/
def strftime_Ymd (d : PyDate) : String :=
  padZeros 4 d.year ++ "-" ++ padZeros 2 d.month ++ "-" ++ padZeros 2 d.day

/-- Splits a character list on a separator character (Python str.split
restricted to a one-character separator). -/
def splitOnChar (sep : Char) : List Char → List (List Char)
  | [] => [[]]
  | c :: rest =>
    let r := splitOnChar sep rest
    if c = sep then [] :: r
    else
      match r with
      | h :: t => (c :: h) :: t
      | [] => [[c]]

/-- Numeric value of a digit string. -/
def digitsToNat (l : List Char) : Nat :=
  l.foldl (fun a c => 10 * a + (c.toNat - 48)) 0

/-- Whether datetime.strptime with format %Y-%m-%d succeeds on the
string: a four-digit year of at least 1 (datetime.MINYEAR), a one- or
two-digit month in 1..12, a one- or two-digit day that exists in that
month of that year, and nothing else in the string. -/
def strptime_Ymd_ok (s : String) : Bool :=
  match splitOnChar '-' s.data with
  | [y, m, d] =>
    decide (y.length = 4) && y.all Char.isDigit && digitsToNat y ≥ 1 &&
    decide (1 ≤ m.length) && decide (m.length ≤ 2) && m.all Char.isDigit &&
    decide (1 ≤ digitsToNat m) && decide (digitsToNat m ≤ 12) &&
    decide (1 ≤ d.length) && decide (d.length ≤ 2) && d.all Char.isDigit &&
    decide (1 ≤ digitsToNat d) &&
    decide (digitsToNat d ≤ daysInMonth (digitsToNat y) (digitsToNat m))
  | _ => false

/-! ### Headers and the HTTP model -/

/-- Sets key k to value v: replaces the first binding of k in place, or
appends a new binding (dict.update for a single key). -/
def setHeader : List (String × String) → String → String → List (String × String)
  | [], k, v => [(k, v)]
  | (k', v') :: rest, k, v =>
    if k' = k then (k, v) :: rest else (k', v') :: setHeader rest k v

/-- Python dict.update: applies every binding of upd to h. -/
def updateHeaders (h : List (String × String)) (upd : List (String × String)) :
    List (String × String) :=
  upd.foldl (fun acc kv => setHeader acc kv.1 kv.2) h

/-- Header lookup. -/
def getHeader : List (String × String) → String → Option String
  | [], _ => Option.none
  | (k', v) :: rest, k => if k' = k then some v else getHeader rest k

inductive HttpMethod where
  | GET
  | POST
  | DELETE
deriving DecidableEq, Repr

/-- An outbound HTTP request as handed to the transport: the headers are
the session headers merged with the per-request headers (the merge the
requests library performs before sending), the auth field carries HTTP
Basic credentials when present, and the timeout field holds the
per-request timeout in seconds when one was passed. -/
structure HttpRequest where
  method : HttpMethod
  url : String
  headers : List (String × String)
  params : List (String × PyVal)
  jsonBody : Option (List (String × PyVal))
  timeout : Option Nat
  auth : Option (String × String)
deriving DecidableEq, Repr

/-- A raw transport response (requests.models.Response): status code,
headers and body, handed back to the caller unmodified. -/
structure HttpResponse where
  status : Nat
  headers : List (String × String)
  body : String
deriving DecidableEq, Repr

/-- Outcome of the OAuth2 token exchange performed by fetch_token of
OAuth2Session: a bearer token, a MissingTokenError (the authorization
server rejected the credentials), or a ConnectionError (the transport
could not reach the endpoint). -/
inductive TokenFetchResult where
  | ok (token : String) : TokenFetchResult
  | missingToken : TokenFetchResult
  | connectionFailure : TokenFetchResult
deriving DecidableEq, Repr

/-! ### The session -/

/-- The fixed per-request timeout constant, in seconds (TIMEOUT = 5). -/
def TIMEOUT : Nat := 5

/-- The session state: credentials, derived token URL, the current
access token (absent until acquired) and the mutable default-header map.
The closed flag records whether the underlying transport was closed. -/
structure SierraSession where
  base_url : String
  key : String
  secret : String
  token_url : String
  access_token : Option String
  headers : List (String × String)
  closed : Bool
deriving DecidableEq, Repr

/-- The default headers a fresh requests session carries before the
wrapper runs its own headers.update (as exercised by the mocked-session
test of the repository). -/
def requestsDefaultHeaders : List (String × String) :=
  [("User-Agent", "python-requests"),
   ("Accept-Encoding", "gzip, deflate"),
   ("Accept", "*/*"),
   ("Connection", "keep-alive")]

/-- Method _set_response_format_header of SierraSession: maps the
requested response format to the per-request override headers. -/
def set_response_format_header (response_format : PyVal) : List (String × String) :=
  if response_format = PyVal.str "xml" then [("Accept", "application/xml")]
  else []

/-- The token-fetch request issued by fetch_token with HTTPBasicAuth of
key and secret: a POST to the token URL carrying HTTP Basic
credentials. -/
def mkTokenRequest (s : SierraSession) : HttpRequest :=
  { method := .POST
    url := s.token_url
    headers := s.headers
    params := []
    jsonBody := Option.none
    timeout := Option.none
    auth := some (s.key, s.secret) }

/-- Method get_token of SierraSession: posts the client-credentials
grant with HTTP Basic auth and, when an access token came back, sets the
bearer Authorization header in the default headers of the session. -/
def SierraSession.get_token (s : SierraSession) (fetch : TokenFetchResult) :
    Except PyError SierraSession × List HttpRequest :=
  let req := mkTokenRequest s
  match fetch with
  | .ok tok =>
    let s1 := { s with access_token := some tok }
    let s2 :=
      match s1.access_token with
      | some t => { s1 with headers := updateHeaders s1.headers [("Authorization", "Bearer " ++ t)] }
      | Option.none => s1
    (.ok s2, [req])
  | .missingToken => (.error .missingTokenError, [req])
  | .connectionFailure => (.error .connectionError, [req])

/-- Result of running the constructor: a session, or the exception it
re-raised together with whether it closed the transport first. -/
inductive InitResult where
  | ok (s : SierraSession) : InitResult
  | error (e : PyError) (transportClosed : Bool) : InitResult
deriving DecidableEq, Repr

/-- Whether construction failed with the InvalidArgument of the spec,
which the code raises as a TypeError. -/
def InitResult.isTypeError : InitResult → Bool
  | .error (.typeError _) _ => true
  | _ => false

/-- The constructor of SierraSession: validates that the three arguments
are strings, derives the token URL, sets the wrapper default headers,
and fetches a token, closing the transport and re-raising on
MissingTokenError or ConnectionError. -/
def SierraSession.init (base_url key secret : PyVal) (fetch : TokenFetchResult) :
    InitResult × List HttpRequest :=
  if ! typeIsStr base_url then
    (.error (.typeError "Sierra API base URL is missing") false, [])
  else if ! typeIsStr key then
    (.error (.typeError "Sierra API key must be a string") false, [])
  else if ! typeIsStr secret then
    (.error (.typeError "Sierra API secret must be a string") false, [])
  else
    let s0 : SierraSession :=
      { base_url := pyAsStr base_url
        key := pyAsStr key
        secret := pyAsStr secret
        token_url := urljoin (pyAsStr base_url) "token"
        access_token := Option.none
        headers := updateHeaders requestsDefaultHeaders
          [("User-Agent", "BookOps-Sierra-API-wrapper"), ("Accept", "application/json")]
        closed := false }
    match s0.get_token fetch with
    | (.ok s1, tr) => (.ok s1, tr)
    | (.error .missingTokenError, tr) => (.error .missingTokenError true, tr)
    | (.error .connectionError, tr) => (.error .connectionError true, tr)
    | (.error e, tr) => (.error e false, tr)

/-! ### Endpoint methods

Each method takes the transport as an oracle, returns the raw transport
response (or the validation error it raised), and its network trace. -/

/-- Method bib_get_by_id of SierraSession: GET bibs/{bid} under the base
URL with the fields query parameter. -/
def SierraSession.bib_get_by_id (s : SierraSession) (transport : HttpRequest → HttpResponse)
    (bid fields response_format : PyVal) :
    Except PyError HttpResponse × List HttpRequest :=
  let url := urljoin s.base_url ("bibs/" ++ pyStr bid)
  let payload := [("fields", fields)]
  let request_headers := set_response_format_header response_format
  let req : HttpRequest :=
    { method := .GET
      url := url
      headers := updateHeaders s.headers request_headers
      params := payload
      jsonBody := Option.none
      timeout := some TIMEOUT
      auth := Option.none }
  (.ok (transport req), [req])

/-- Method hold_place_on_item of SierraSession: validates the five typed
inputs, resolves needed_by (default: today plus 14 days), and issues a
POST to patrons/{pid}/holds/requests under the base URL with the JSON
body of recordType, recordNumber, pickupLocation, neededBy and note.
The today argument is the wall-clock date that date.today() reads. -/
def SierraSession.hold_place_on_item (s : SierraSession)
    (transport : HttpRequest → HttpResponse) (today : PyDate)
    (pid iid pickup_location needed_by note response_format : PyVal) :
    Except PyError HttpResponse × List HttpRequest :=
  if ! pyIsInt pid then
    (.error (.typeError "patron id (pid) must be an integer"), [])
  else if ! pyIsInt iid then
    (.error (.typeError "item number (iid) argument must be an integer"), [])
  else if ! pyIsStr pickup_location then
    (.error (.typeError "location code argument must be a string"), [])
  else if ! pyIsStr needed_by then
    (.error (.typeError "needed_by parameter must a string"), [])
  else if ! pyIsStr note then
    (.error (.typeError "note parameter must be a string"), [])
  else
    let request_headers := set_response_format_header response_format
    let nb := pyAsStr needed_by
    let nbResolved : Except PyError String :=
      if nb ≠ "" then
        if strptime_Ymd_ok nb then .ok nb
        else .error (.valueError "time data does not match format Y-m-d")
      else .ok (strftime_Ymd (addDays today 14))
    match nbResolved with
    | .error e => (.error e, [])
    | .ok neededBy =>
      let url := urljoin s.base_url ("patrons/" ++ pyStr pid ++ "/holds/requests")
      let request_body :=
        [("recordType", PyVal.str "i"),
         ("recordNumber", iid),
         ("pickupLocation", pickup_location),
         ("neededBy", PyVal.str neededBy),
         ("note", note)]
      let req : HttpRequest :=
        { method := .POST
          url := url
          headers := updateHeaders s.headers request_headers
          params := []
          jsonBody := some request_body
          timeout := some TIMEOUT
          auth := Option.none }
      (.ok (transport req), [req])

/-- Method hold_delete_by_id of SierraSession: validates the hold id and
issues a DELETE to patrons/holds/{hid} under the base URL. -/
def SierraSession.hold_delete_by_id (s : SierraSession)
    (transport : HttpRequest → HttpResponse) (hid response_format : PyVal) :
    Except PyError HttpResponse × List HttpRequest :=
  if ! pyIsInt hid then
    (.error (.typeError "hold id must be an integer"), [])
  else
    let request_headers := set_response_format_header response_format
    let url := urljoin s.base_url ("patrons/holds/" ++ pyStr hid)
    let req : HttpRequest :=
      { method := .DELETE
        url := url
        headers := updateHeaders s.headers request_headers
        params := []
        jsonBody := Option.none
        timeout := some TIMEOUT
        auth := Option.none }
    (.ok (transport req), [req])

/-- Method hold_get_by_id of SierraSession: issues a GET to
patrons/holds/{hid} under the base URL with the fields query parameter,
performing no argument validation whatsoever. -/
def SierraSession.hold_get_by_id (s : SierraSession)
    (transport : HttpRequest → HttpResponse) (hid fields response_format : PyVal) :
    Except PyError HttpResponse × List HttpRequest :=
  let request_headers := set_response_format_header response_format
  let url := urljoin s.base_url ("patrons/holds/" ++ pyStr hid)
  let payload := [("fields", fields)]
  let req : HttpRequest :=
    { method := .GET
      url := url
      headers := updateHeaders s.headers request_headers
      params := payload
      jsonBody := Option.none
      timeout := some TIMEOUT
      auth := Option.none }
  (.ok (transport req), [req])

/-- Method hold_get_all of SierraSession: validates its four typed
arguments and issues a GET to patrons/{pid}/holds under the base URL
with limit, offset and fields query parameters. -/
def SierraSession.hold_get_all (s : SierraSession)
    (transport : HttpRequest → HttpResponse)
    (pid limit offset fields response_format : PyVal) :
    Except PyError HttpResponse × List HttpRequest :=
  if ! pyIsInt pid then
    (.error (.typeError "patron id (pid) must be an integer"), [])
  else if ! pyIsInt limit then
    (.error (.typeError "limit parameter must be an integer"), [])
  else if ! pyIsInt offset then
    (.error (.typeError "offset parameter must be an intege"), [])
  else if ! pyIsStr fields then
    (.error (.typeError "fields paramater must be a string"), [])
  else
    let request_headers := set_response_format_header response_format
    let url := urljoin s.base_url ("patrons/" ++ pyStr pid ++ "/holds")
    let payload := [("limit", limit), ("offset", offset), ("fields", fields)]
    let req : HttpRequest :=
      { method := .GET
        url := url
        headers := updateHeaders s.headers request_headers
        params := payload
        jsonBody := Option.none
        timeout := some TIMEOUT
        auth := Option.none }
    (.ok (transport req), [req])

/-- Method hold_delete_all of SierraSession: validates the patron id and
the response format and issues a DELETE to patrons/{pid}/holds under the
base URL.  Note: the source passes no timeout to this one request. -/
def SierraSession.hold_delete_all (s : SierraSession)
    (transport : HttpRequest → HttpResponse) (pid response_format : PyVal) :
    Except PyError HttpResponse × List HttpRequest :=
  if ! pyIsInt pid then
    (.error (.typeError "patron id (pid) argument must be an integer"), [])
  else if ! pyIsStr response_format then
    (.error (.typeError "response_format parameter must be a string"), [])
  else
    let url := urljoin s.base_url ("patrons/" ++ pyStr pid ++ "/holds")
    let request_headers := set_response_format_header response_format
    let req : HttpRequest :=
      { method := .DELETE
        url := url
        headers := updateHeaders s.headers request_headers
        params := []
        jsonBody := Option.none
        timeout := Option.none
        auth := Option.none }
    (.ok (transport req), [req])

/-! ### Derived forms used by the statements -/

/-- The session state after the constructor sets up headers, before the
token fetch. -/
def preTokenSession (base key secret : String) : SierraSession :=
  { base_url := base
    key := key
    secret := secret
    token_url := urljoin base "token"
    access_token := Option.none
    headers :=
      [("User-Agent", "BookOps-Sierra-API-wrapper"),
       ("Accept-Encoding", "gzip, deflate"),
       ("Accept", "application/json"),
       ("Connection", "keep-alive")]
    closed := false }

/-- The session state after a successful construction with the given
token. -/
def postInitSession (base key secret tok : String) : SierraSession :=
  { base_url := base
    key := key
    secret := secret
    token_url := urljoin base "token"
    access_token := some tok
    headers :=
      [("User-Agent", "BookOps-Sierra-API-wrapper"),
       ("Accept-Encoding", "gzip, deflate"),
       ("Accept", "application/json"),
       ("Connection", "keep-alive"),
       ("Authorization", "Bearer " ++ tok)]
    closed := false }

/-- The Accept header value the format negotiation selects. -/
def negotiatedAccept (response_format : PyVal) : String :=
  if response_format = PyVal.str "xml" then "application/xml" else "application/json"

/-- Every request in the list carries the bearer Authorization header
for the token and the Accept header negotiated for the format. -/
def requestsCarry (tok : String) (response_format : PyVal) : List HttpRequest → Prop
  | [] => True
  | r :: rest =>
    (getHeader r.headers "Authorization" = some ("Bearer " ++ tok) ∧
     getHeader r.headers "Accept" = some (negotiatedAccept response_format)) ∧
    requestsCarry tok response_format rest

/-- A validation failure that sent nothing: the call raised a TypeError
or ValueError (the InvalidArgument of the spec) and its network trace is
empty. -/
def invalidArgumentNoRequest (r : Except PyError HttpResponse × List HttpRequest) : Bool :=
  match r with
  | (.error e, []) => e.isInvalidArgument
  | _ => false

/-- The request bib_get_by_id issues for a string id with default fields
and default format. -/
def bibRequest (s : SierraSession) (bid : String) : HttpRequest :=
  { method := .GET
    url := urljoin s.base_url ("bibs/" ++ bid)
    headers := s.headers
    params := [("fields", PyVal.str "default")]
    jsonBody := Option.none
    timeout := some TIMEOUT
    auth := Option.none }

/-- The request hold_get_by_id issues. -/
def holdGetRequest (s : SierraSession) (hid fields response_format : PyVal) : HttpRequest :=
  { method := .GET
    url := urljoin s.base_url ("patrons/holds/" ++ pyStr hid)
    headers := updateHeaders s.headers (set_response_format_header response_format)
    params := [("fields", fields)]
    jsonBody := Option.none
    timeout := some TIMEOUT
    auth := Option.none }

/-- The request hold_place_on_item issues when no needed_by date is
supplied and the format is the default. -/
def placeHoldRequest (s : SierraSession) (today : PyDate) (pid iid : Int)
    (pickup_location note : String) : HttpRequest :=
  { method := .POST
    url := urljoin s.base_url ("patrons/" ++ toString pid ++ "/holds/requests")
    headers := s.headers
    params := []
    jsonBody := some
      [("recordType", PyVal.str "i"),
       ("recordNumber", PyVal.int iid),
       ("pickupLocation", PyVal.str pickup_location),
       ("neededBy", PyVal.str (strftime_Ymd (addDays today 14))),
       ("note", PyVal.str note)]
    timeout := some TIMEOUT
    auth := Option.none }

/-- A demonstration base URL of the shape the Sierra API uses. -/
def demoBase : String := "https://sierra.library.org/iii/sierra-api/v5/"

/-- A demonstration session as produced by a successful construction. -/
def demoSession : SierraSession := postInitSession demoBase "my_key" "my_secret" "demo_token"

/-- A demonstration transport oracle; it answers every request with a
non-2xx status, exercising the pass-through of failure statuses. -/
def demoTransport : HttpRequest → HttpResponse :=
  fun _ => { status := 404, headers := [("Content-Type", "application/json")], body := "err" }

/-! ### Helper lemmas -/

theorem pyIsStr_str (x : String) : pyIsStr (.str x) = true := rfl

theorem pyIsInt_int (n : Int) : pyIsInt (.int n) = true := rfl

theorem pyAsStr_str (x : String) : pyAsStr (.str x) = x := rfl

/-- Constructing from string credentials with a successful token
exchange yields exactly the post-init session and exactly one outbound
request: the token POST. -/
theorem init_ok_eq (base key secret tok : String) :
    SierraSession.init (.str base) (.str key) (.str secret) (.ok tok) =
      (.ok (postInitSession base key secret tok),
       [mkTokenRequest (preTokenSession base key secret)]) := rfl

theorem getHeader_setHeader_self (l : List (String × String)) (k v : String) :
    getHeader (setHeader l k v) k = some v := by
  induction l with
  | nil => simp [setHeader, getHeader]
  | cons hd tl ih =>
    by_cases h : hd.1 = k
    · simp [setHeader, getHeader, h]
    · simp [setHeader, getHeader, h, ih]

/-- After a successful construction, merging the per-request format
headers into the session headers leaves the bearer token in place and
yields the negotiated Accept header. -/
theorem auth_accept_post (base key secret tok : String) (response_format : PyVal) :
    getHeader (updateHeaders (postInitSession base key secret tok).headers
        (set_response_format_header response_format)) "Authorization" =
      some ("Bearer " ++ tok) ∧
    getHeader (updateHeaders (postInitSession base key secret tok).headers
        (set_response_format_header response_format)) "Accept" =
      some (negotiatedAccept response_format) := by
  by_cases h : response_format = PyVal.str "xml"
  · subst h
    exact ⟨rfl, rfl⟩
  · unfold set_response_format_header negotiatedAccept
    rw [if_neg h, if_neg h]
    exact ⟨rfl, rfl⟩

/-! ### Claims -/

/-- Claim C1: for every session with a successfully acquired token,
every outbound request issued by an endpoint method (get bib by id,
place hold, get hold by id, list holds, delete hold by id, delete all
holds) carries the current bearer token in its Authorization header and
the negotiated Accept header — application/json by default,
application/xml when the xml format is requested.  Only the token-fetch
request itself is exempt. -/
theorem requests_carry_bearer_and_accept
    (base key secret tok : String) (s : SierraSession)
    (h : (SierraSession.init (.str base) (.str key) (.str secret) (.ok tok)).1 = .ok s)
    (transport : HttpRequest → HttpResponse) (today : PyDate)
    (response_format bid fields pid iid pickup_location needed_by note hid fields2
      pid2 limit offset fields3 hid2 pid3 : PyVal) :
    requestsCarry tok response_format
      (s.bib_get_by_id transport bid fields response_format).2 ∧
    requestsCarry tok response_format
      (s.hold_place_on_item transport today pid iid pickup_location needed_by note
        response_format).2 ∧
    requestsCarry tok response_format
      (s.hold_get_by_id transport hid fields2 response_format).2 ∧
    requestsCarry tok response_format
      (s.hold_get_all transport pid2 limit offset fields3 response_format).2 ∧
    requestsCarry tok response_format
      (s.hold_delete_by_id transport hid2 response_format).2 ∧
    requestsCarry tok response_format
      (s.hold_delete_all transport pid3 response_format).2 := by
  have hs : s = postInitSession base key secret tok := by
    have h0 : (SierraSession.init (.str base) (.str key) (.str secret) (.ok tok)).1 =
        .ok (postInitSession base key secret tok) := rfl
    rw [h0] at h
    injection h with h'
    exact h'.symm
  subst hs
  refine ⟨?_, ?_, ?_, ?_, ?_, ?_⟩
  · exact ⟨auth_accept_post base key secret tok response_format, trivial⟩
  · cases h1 : pyIsInt pid with
    | false => simp [SierraSession.hold_place_on_item, h1, requestsCarry]
    | true =>
      cases h2 : pyIsInt iid with
      | false => simp [SierraSession.hold_place_on_item, h1, h2, requestsCarry]
      | true =>
        cases h3 : pyIsStr pickup_location with
        | false => simp [SierraSession.hold_place_on_item, h1, h2, h3, requestsCarry]
        | true =>
          cases h4 : pyIsStr needed_by with
          | false => simp [SierraSession.hold_place_on_item, h1, h2, h3, h4, requestsCarry]
          | true =>
            by_cases h6 : pyAsStr needed_by = ""
            · simp only [SierraSession.hold_place_on_item, h1, h2, h3, h4, h6,
                requestsCarry]
              cases h5 : pyIsStr note with
              | false => simp [h5, requestsCarry]
              | true =>
                simp [h5, requestsCarry]
                exact auth_accept_post base key secret tok response_format
            · cases h7 : strptime_Ymd_ok (pyAsStr needed_by) with
              | false =>
                cases h5 : pyIsStr note with
                | false =>
                  simp [SierraSession.hold_place_on_item, h1, h2, h3, h4, h5, requestsCarry]
                | true =>
                  simp [SierraSession.hold_place_on_item, h1, h2, h3, h4, h5, h6, h7,
                    requestsCarry]
              | true =>
                cases h5 : pyIsStr note with
                | false =>
                  simp [SierraSession.hold_place_on_item, h1, h2, h3, h4, h5, requestsCarry]
                | true =>
                  simp [SierraSession.hold_place_on_item, h1, h2, h3, h4, h5, h6, h7,
                    requestsCarry]
                  exact auth_accept_post base key secret tok response_format
  · exact ⟨auth_accept_post base key secret tok response_format, trivial⟩
  · cases h1 : pyIsInt pid2 with
    | false => simp [SierraSession.hold_get_all, h1, requestsCarry]
    | true =>
      cases h2 : pyIsInt limit with
      | false => simp [SierraSession.hold_get_all, h1, h2, requestsCarry]
      | true =>
        cases h3 : pyIsInt offset with
        | false => simp [SierraSession.hold_get_all, h1, h2, h3, requestsCarry]
        | true =>
          cases h4 : pyIsStr fields3 with
          | false => simp [SierraSession.hold_get_all, h1, h2, h3, h4, requestsCarry]
          | true =>
            simp [SierraSession.hold_get_all, h1, h2, h3, h4, requestsCarry]
            exact auth_accept_post base key secret tok response_format
  · cases h1 : pyIsInt hid2 with
    | false => simp [SierraSession.hold_delete_by_id, h1, requestsCarry]
    | true =>
      simp [SierraSession.hold_delete_by_id, h1, requestsCarry]
      exact auth_accept_post base key secret tok response_format
  · cases h1 : pyIsInt pid3 with
    | false => simp [SierraSession.hold_delete_all, h1, requestsCarry]
    | true =>
      cases h2 : pyIsStr response_format with
      | false => simp [SierraSession.hold_delete_all, h1, h2, requestsCarry]
      | true =>
        simp [SierraSession.hold_delete_all, h1, h2, requestsCarry]
        exact auth_accept_post base key secret tok response_format

/-- Witness for claim C1: the invariant evaluated on a concrete session
and concrete calls to all six endpoint methods. -/
theorem requests_carry_bearer_and_accept_witness :
    requestsCarry "demo_token" (PyVal.str "json")
      (demoSession.bib_get_by_id demoTransport (PyVal.str "10000002") (PyVal.str "default")
        (PyVal.str "json")).2 ∧
    requestsCarry "demo_token" (PyVal.str "json")
      (demoSession.hold_place_on_item demoTransport ⟨2024, 12, 25⟩ (PyVal.int 123456)
        (PyVal.int 7654321) (PyVal.str "agc") (PyVal.str "") (PyVal.str "")
        (PyVal.str "json")).2 ∧
    requestsCarry "demo_token" (PyVal.str "json")
      (demoSession.hold_get_by_id demoTransport (PyVal.int 111) (PyVal.str "default")
        (PyVal.str "json")).2 ∧
    requestsCarry "demo_token" (PyVal.str "json")
      (demoSession.hold_get_all demoTransport (PyVal.int 123456) (PyVal.int 50) (PyVal.int 0)
        (PyVal.str "default") (PyVal.str "json")).2 ∧
    requestsCarry "demo_token" (PyVal.str "json")
      (demoSession.hold_delete_by_id demoTransport (PyVal.int 222) (PyVal.str "json")).2 ∧
    requestsCarry "demo_token" (PyVal.str "json")
      (demoSession.hold_delete_all demoTransport (PyVal.int 123456) (PyVal.str "json")).2 :=
  requests_carry_bearer_and_accept demoBase "my_key" "my_secret" "demo_token" demoSession rfl
    demoTransport ⟨2024, 12, 25⟩ (PyVal.str "json") (PyVal.str "10000002")
    (PyVal.str "default") (PyVal.int 123456) (PyVal.int 7654321) (PyVal.str "agc")
    (PyVal.str "") (PyVal.str "") (PyVal.int 111) (PyVal.str "default") (PyVal.int 123456)
    (PyVal.int 50) (PyVal.int 0) (PyVal.str "default") (PyVal.int 222) (PyVal.int 123456)

/-- Claim C2: for every construction call with valid string credentials,
construction performs exactly one token request — a POST to the token
URL derived from the base URL, authenticated with HTTP Basic credentials
built from key and secret — and on success stores the returned bearer
token and sets the bearer Authorization header in the default headers of
the session.  The hypothesis on joinBase states that the base URL is a
well-formed absolute URL ending in a slash, for which the derived token
URL is the base URL followed by the word token. -/
theorem construction_single_token_request
    (base key secret tok : String) (fetch : TokenFetchResult)
    (hb : joinBase base = base) :
    (SierraSession.init (.str base) (.str key) (.str secret) fetch).2 =
      [mkTokenRequest (preTokenSession base key secret)] ∧
    mkTokenRequest (preTokenSession base key secret) =
      { method := .POST
        url := base ++ "token"
        headers := (preTokenSession base key secret).headers
        params := []
        jsonBody := Option.none
        timeout := Option.none
        auth := some (key, secret) } ∧
    (SierraSession.init (.str base) (.str key) (.str secret) (.ok tok)).1 =
      .ok (postInitSession base key secret tok) ∧
    (postInitSession base key secret tok).access_token = some tok ∧
    getHeader (postInitSession base key secret tok).headers "Authorization" =
      some ("Bearer " ++ tok) := by
  refine ⟨?_, ?_, rfl, rfl, rfl⟩
  · cases fetch <;> rfl
  · have h1 : mkTokenRequest (preTokenSession base key secret) =
      { method := .POST
        url := joinBase base ++ "token"
        headers := (preTokenSession base key secret).headers
        params := []
        jsonBody := Option.none
        timeout := Option.none
        auth := some (key, secret) } := rfl
    rw [h1, hb]

/-- Witness for claim C2: the construction contract evaluated on
concrete credentials. -/
theorem construction_single_token_request_witness :
    (SierraSession.init (.str demoBase) (.str "my_key") (.str "my_secret")
        (.ok "demo_token")).2 =
      [mkTokenRequest (preTokenSession demoBase "my_key" "my_secret")] ∧
    mkTokenRequest (preTokenSession demoBase "my_key" "my_secret") =
      { method := .POST
        url := demoBase ++ "token"
        headers := (preTokenSession demoBase "my_key" "my_secret").headers
        params := []
        jsonBody := Option.none
        timeout := Option.none
        auth := some ("my_key", "my_secret") } ∧
    (SierraSession.init (.str demoBase) (.str "my_key") (.str "my_secret")
        (.ok "demo_token")).1 =
      .ok (postInitSession demoBase "my_key" "my_secret" "demo_token") ∧
    (postInitSession demoBase "my_key" "my_secret" "demo_token").access_token =
      some "demo_token" ∧
    getHeader (postInitSession demoBase "my_key" "my_secret" "demo_token").headers
        "Authorization" = some ("Bearer " ++ "demo_token") :=
  construction_single_token_request demoBase "my_key" "my_secret" "demo_token"
    (.ok "demo_token") rfl

/-- Claim C3: for every construction call in which base URL, key or
secret is missing (None) or is not a string, construction fails with
InvalidArgument — raised as a TypeError — at construction time, and no
network call (in particular no token request) is attempted: the network
trace is empty. -/
theorem construction_rejects_non_string_args
    (base_url key secret : PyVal) (fetch : TokenFetchResult)
    (h : (typeIsStr base_url && typeIsStr key && typeIsStr secret) = false) :
    (SierraSession.init base_url key secret fetch).2 = [] ∧
    (SierraSession.init base_url key secret fetch).1.isTypeError = true := by
  cases hb : typeIsStr base_url with
  | false => constructor <;> simp [SierraSession.init, hb, InitResult.isTypeError]
  | true =>
    cases hk : typeIsStr key with
    | false => constructor <;> simp [SierraSession.init, hb, hk, InitResult.isTypeError]
    | true =>
      cases hs : typeIsStr secret with
      | false => constructor <;> simp [SierraSession.init, hb, hk, hs, InitResult.isTypeError]
      | true => rw [hb, hk, hs] at h; simp at h

/-- Witness for claim C3: constructing with a None base URL fails with a
TypeError and issues no request. -/
theorem construction_rejects_non_string_args_witness :
    (SierraSession.init PyVal.none (.str "my_key") (.str "my_secret") (.ok "t")).2 = [] ∧
    (SierraSession.init PyVal.none (.str "my_key") (.str "my_secret")
        (.ok "t")).1.isTypeError = true :=
  construction_rejects_non_string_args PyVal.none (.str "my_key") (.str "my_secret")
    (.ok "t") rfl

/-- Claim C4: for every construction call whose token acquisition fails
— with MissingToken when the authorization server rejects the
credentials, or ConnectionFailure when the transport cannot reach the
endpoint — the constructor closes the underlying transport and re-raises
that same failure, so construction never yields a half-initialized
session.  The trace shows the one attempted token request. -/
theorem construction_closes_and_reraises
    (base key secret : String) :
    (SierraSession.init (.str base) (.str key) (.str secret) .missingToken).1 =
      .error .missingTokenError true ∧
    (SierraSession.init (.str base) (.str key) (.str secret) .missingToken).2 =
      [mkTokenRequest (preTokenSession base key secret)] ∧
    (SierraSession.init (.str base) (.str key) (.str secret) .connectionFailure).1 =
      .error .connectionError true ∧
    (SierraSession.init (.str base) (.str key) (.str secret) .connectionFailure).2 =
      [mkTokenRequest (preTokenSession base key secret)] :=
  ⟨rfl, rfl, rfl, rfl⟩

/-- Witness for claim C4: both failure modes evaluated on concrete
credentials. -/
theorem construction_closes_and_reraises_witness :
    (SierraSession.init (.str demoBase) (.str "my_key") (.str "my_secret")
        .missingToken).1 = .error .missingTokenError true ∧
    (SierraSession.init (.str demoBase) (.str "my_key") (.str "my_secret")
        .missingToken).2 =
      [mkTokenRequest (preTokenSession demoBase "my_key" "my_secret")] ∧
    (SierraSession.init (.str demoBase) (.str "my_key") (.str "my_secret")
        .connectionFailure).1 = .error .connectionError true ∧
    (SierraSession.init (.str demoBase) (.str "my_key") (.str "my_secret")
        .connectionFailure).2 =
      [mkTokenRequest (preTokenSession demoBase "my_key" "my_secret")] :=
  construction_closes_and_reraises demoBase "my_key" "my_secret"

/-- Claim C5: for every call to place hold, each typed input (patron id
integer, item id integer, pickup location string, needed-by string, note
string) is checked and a wrong type fails with InvalidArgument before
any network call; and for every supplied non-empty needed_by that does
not parse as an ISO YYYY-MM-DD calendar date, the call fails with
InvalidArgument (the propagated parse error) before any request is
sent. -/
theorem hold_place_validates_before_network :
    (∀ (s : SierraSession) (transport : HttpRequest → HttpResponse) (today : PyDate)
       (pid iid pickup_location needed_by note response_format : PyVal),
       (pyIsInt pid && pyIsInt iid && pyIsStr pickup_location &&
        pyIsStr needed_by && pyIsStr note) = false →
       invalidArgumentNoRequest
         (s.hold_place_on_item transport today pid iid pickup_location needed_by note
           response_format) = true) ∧
    (∀ (s : SierraSession) (transport : HttpRequest → HttpResponse) (today : PyDate)
       (pid iid pickup_location note response_format : PyVal) (nb : String),
       pyIsInt pid = true → pyIsInt iid = true → pyIsStr pickup_location = true →
       pyIsStr note = true → nb ≠ "" → strptime_Ymd_ok nb = false →
       invalidArgumentNoRequest
         (s.hold_place_on_item transport today pid iid pickup_location (.str nb) note
           response_format) = true) := by
  constructor
  · intro s transport today pid iid pickup_location needed_by note response_format h
    cases h1 : pyIsInt pid with
    | false =>
      simp [SierraSession.hold_place_on_item, h1, invalidArgumentNoRequest,
        PyError.isInvalidArgument]
    | true =>
      cases h2 : pyIsInt iid with
      | false =>
        simp [SierraSession.hold_place_on_item, h1, h2, invalidArgumentNoRequest,
          PyError.isInvalidArgument]
      | true =>
        cases h3 : pyIsStr pickup_location with
        | false =>
          simp [SierraSession.hold_place_on_item, h1, h2, h3, invalidArgumentNoRequest,
            PyError.isInvalidArgument]
        | true =>
          cases h4 : pyIsStr needed_by with
          | false =>
            simp [SierraSession.hold_place_on_item, h1, h2, h3, h4,
              invalidArgumentNoRequest, PyError.isInvalidArgument]
          | true =>
            cases h5 : pyIsStr note with
            | false =>
              simp [SierraSession.hold_place_on_item, h1, h2, h3, h4, h5,
                invalidArgumentNoRequest, PyError.isInvalidArgument]
            | true => rw [h1, h2, h3, h4, h5] at h; simp at h
  · intro s transport today pid iid pickup_location note response_format nb
      h1 h2 h3 h5 hne hbad
    simp [SierraSession.hold_place_on_item, pyIsStr_str, pyAsStr_str, h1, h2, h3, h5, hne,
      hbad, invalidArgumentNoRequest, PyError.isInvalidArgument]

/-- Witness for claim C5: a wrongly typed patron id and the invalid
calendar date 2024-13-40 both fail with InvalidArgument and an empty
network trace. -/
theorem hold_place_validates_before_network_witness :
    invalidArgumentNoRequest
      (demoSession.hold_place_on_item demoTransport ⟨2024, 12, 25⟩ (PyVal.str "123456")
        (PyVal.int 7654321) (PyVal.str "agc") (PyVal.str "") (PyVal.str "")
        (PyVal.str "json")) = true ∧
    invalidArgumentNoRequest
      (demoSession.hold_place_on_item demoTransport ⟨2024, 12, 25⟩ (PyVal.int 123456)
        (PyVal.int 7654321) (PyVal.str "agc") (PyVal.str "2024-13-40") (PyVal.str "")
        (PyVal.str "json")) = true :=
  ⟨hold_place_validates_before_network.1 demoSession demoTransport ⟨2024, 12, 25⟩
      (PyVal.str "123456") (PyVal.int 7654321) (PyVal.str "agc") (PyVal.str "")
      (PyVal.str "") (PyVal.str "json") rfl,
   hold_place_validates_before_network.2 demoSession demoTransport ⟨2024, 12, 25⟩
      (PyVal.int 123456) (PyVal.int 7654321) (PyVal.str "agc") (PyVal.str "")
      (PyVal.str "json") "2024-13-40" rfl rfl rfl rfl (by decide) rfl⟩

/-- Claim C6: for every call to place hold with valid inputs and no
needed_by supplied, the session computes neededBy as the ISO date 14
days after the current date and issues a POST to
patrons/{pid}/holds/requests under the base URL whose JSON body is
recordType i, recordNumber iid, pickupLocation, neededBy and note. -/
theorem hold_place_default_body (s : SierraSession) (transport : HttpRequest → HttpResponse)
    (today : PyDate) (pid iid : Int) (pickup_location note : String)
    (hb : joinBase s.base_url = s.base_url) :
    s.hold_place_on_item transport today (.int pid) (.int iid) (.str pickup_location)
        (.str "") (.str note) (.str "json") =
      (.ok (transport (placeHoldRequest s today pid iid pickup_location note)),
       [placeHoldRequest s today pid iid pickup_location note]) ∧
    (placeHoldRequest s today pid iid pickup_location note).url =
      s.base_url ++ ("patrons/" ++ toString pid ++ "/holds/requests") ∧
    (placeHoldRequest s today pid iid pickup_location note).method = .POST ∧
    (placeHoldRequest s today pid iid pickup_location note).jsonBody =
      some [("recordType", PyVal.str "i"), ("recordNumber", PyVal.int iid),
            ("pickupLocation", PyVal.str pickup_location),
            ("neededBy", PyVal.str (strftime_Ymd (addDays today 14))),
            ("note", PyVal.str note)] := by
  refine ⟨rfl, ?_, rfl, rfl⟩
  show joinBase s.base_url ++ ("patrons/" ++ toString pid ++ "/holds/requests") =
    s.base_url ++ ("patrons/" ++ toString pid ++ "/holds/requests")
  rw [hb]

/-- Witness for claim C6: a concrete call on 2024-12-25 computes the
neededBy date 2025-01-08 (14 days later, across the year boundary) and
the full request body. -/
theorem hold_place_default_body_witness :
    demoSession.hold_place_on_item demoTransport ⟨2024, 12, 25⟩ (.int 123456) (.int 7654321)
        (.str "agc") (.str "") (.str "") (.str "json") =
      (.ok (demoTransport (placeHoldRequest demoSession ⟨2024, 12, 25⟩ 123456 7654321 "agc" "")),
       [placeHoldRequest demoSession ⟨2024, 12, 25⟩ 123456 7654321 "agc" ""]) ∧
    (placeHoldRequest demoSession ⟨2024, 12, 25⟩ 123456 7654321 "agc" "").url =
      demoBase ++ ("patrons/" ++ toString (123456 : Int) ++ "/holds/requests") ∧
    (placeHoldRequest demoSession ⟨2024, 12, 25⟩ 123456 7654321 "agc" "").method = .POST ∧
    (placeHoldRequest demoSession ⟨2024, 12, 25⟩ 123456 7654321 "agc" "").jsonBody =
      some [("recordType", PyVal.str "i"), ("recordNumber", PyVal.int 7654321),
            ("pickupLocation", PyVal.str "agc"),
            ("neededBy", PyVal.str "2025-01-08"),
            ("note", PyVal.str "")] :=
  hold_place_default_body demoSession demoTransport ⟨2024, 12, 25⟩ 123456 7654321 "agc" "" rfl

/-- Counterexample to claim C7: the claim says every endpoint method
issues its request with the fixed 5-second timeout, but the one request
delete all holds issues carries no timeout at all — the source passes no
timeout argument to that call. -/
theorem hold_delete_all_timeout_counterexample :
    (demoSession.hold_delete_all demoTransport (PyVal.int 123456) (PyVal.str "json")).2.map
        HttpRequest.timeout = [Option.none] ∧
    ¬ ((demoSession.hold_delete_all demoTransport (PyVal.int 123456) (PyVal.str "json")).2.map
        HttpRequest.timeout = [some TIMEOUT]) := by
  constructor
  · rfl
  · intro hcontra
    have h1 : ([Option.none] : List (Option Nat)) = [some TIMEOUT] := by
      rw [show (demoSession.hold_delete_all demoTransport (PyVal.int 123456)
          (PyVal.str "json")).2.map HttpRequest.timeout = [Option.none] from rfl] at hcontra
      exact hcontra
    simp at h1

/-- Claim C7 as amended: place hold, get hold by id, list holds and
delete hold by id issue their requests with the fixed per-request
timeout of 5 seconds; delete all holds issues its request with no
timeout set. -/
theorem endpoint_timeouts_amended (s : SierraSession)
    (transport : HttpRequest → HttpResponse) (today : PyDate)
    (pid iid hid pid2 pid3 limit offset : Int) (loc note fields : String)
    (hid2 fields2 response_format2 : PyVal) :
    (s.hold_place_on_item transport today (.int pid) (.int iid) (.str loc) (.str "")
        (.str note) (.str "json")).2.map HttpRequest.timeout = [some TIMEOUT] ∧
    (s.hold_get_by_id transport hid2 fields2 response_format2).2.map
        HttpRequest.timeout = [some TIMEOUT] ∧
    (s.hold_get_all transport (.int pid2) (.int limit) (.int offset) (.str fields)
        (.str "json")).2.map HttpRequest.timeout = [some TIMEOUT] ∧
    (s.hold_delete_by_id transport (.int hid) (.str "json")).2.map
        HttpRequest.timeout = [some TIMEOUT] ∧
    (s.hold_delete_all transport (.int pid3) (.str "json")).2.map
        HttpRequest.timeout = [Option.none] :=
  ⟨rfl, rfl, rfl, rfl, rfl⟩

/-- Witness for the amended claim C7: the five traces evaluated on
concrete calls. -/
theorem endpoint_timeouts_amended_witness :
    (demoSession.hold_place_on_item demoTransport ⟨2024, 12, 25⟩ (.int 123456) (.int 7654321)
        (.str "agc") (.str "") (.str "") (.str "json")).2.map HttpRequest.timeout =
      [some TIMEOUT] ∧
    (demoSession.hold_get_by_id demoTransport (PyVal.int 111) (PyVal.str "default")
        (PyVal.str "json")).2.map HttpRequest.timeout = [some TIMEOUT] ∧
    (demoSession.hold_get_all demoTransport (.int 123456) (.int 50) (.int 0)
        (.str "default") (.str "json")).2.map HttpRequest.timeout = [some TIMEOUT] ∧
    (demoSession.hold_delete_by_id demoTransport (.int 222) (.str "json")).2.map
        HttpRequest.timeout = [some TIMEOUT] ∧
    (demoSession.hold_delete_all demoTransport (.int 123456) (.str "json")).2.map
        HttpRequest.timeout = [Option.none] :=
  endpoint_timeouts_amended demoSession demoTransport ⟨2024, 12, 25⟩ 123456 7654321 222
    123456 123456 50 0 "agc" "" "default" (PyVal.int 111) (PyVal.str "default")
    (PyVal.str "json")

/-- Claim C8: the response-format negotiation helper is a pure mapping
from the requested format to an override header — the empty map for json
(the default) and Accept application/xml for xml — and no call to it
ever mutates the session-level default headers, so a call with the xml
format overrides only that request and a subsequent call without an
explicit format still defaults to application/json. -/
theorem response_format_helper_pure :
    set_response_format_header (PyVal.str "json") = [] ∧
    set_response_format_header (PyVal.str "xml") = [("Accept", "application/xml")] ∧
    ∀ (s : SierraSession) (transport : HttpRequest → HttpResponse) (bid fields : PyVal),
      getHeader s.headers "Accept" = some "application/json" →
      (s.bib_get_by_id transport bid fields (PyVal.str "xml")).2.map
          (fun r => getHeader r.headers "Accept") = [some "application/xml"] ∧
      (s.bib_get_by_id transport bid fields (PyVal.str "json")).2.map
          (fun r => getHeader r.headers "Accept") = [some "application/json"] := by
  refine ⟨rfl, rfl, fun s transport bid fields hAcc => ⟨?_, ?_⟩⟩
  · show [getHeader (updateHeaders s.headers [("Accept", "application/xml")]) "Accept"] =
      [some "application/xml"]
    rw [show updateHeaders s.headers [("Accept", "application/xml")] =
        setHeader s.headers "Accept" "application/xml" from rfl,
      getHeader_setHeader_self]
  · show [getHeader s.headers "Accept"] = [some "application/json"]
    rw [hAcc]

/-- Witness for claim C8: an xml-format call followed by a default call
on the same session. -/
theorem response_format_helper_pure_witness :
    set_response_format_header (PyVal.str "json") = [] ∧
    set_response_format_header (PyVal.str "xml") = [("Accept", "application/xml")] ∧
    ((demoSession.bib_get_by_id demoTransport (PyVal.str "10000002") (PyVal.str "default")
        (PyVal.str "xml")).2.map (fun r => getHeader r.headers "Accept") =
      [some "application/xml"] ∧
     (demoSession.bib_get_by_id demoTransport (PyVal.str "10000002") (PyVal.str "default")
        (PyVal.str "json")).2.map (fun r => getHeader r.headers "Accept") =
      [some "application/json"]) :=
  ⟨response_format_helper_pure.1, response_format_helper_pure.2.1,
   response_format_helper_pure.2.2 demoSession demoTransport (PyVal.str "10000002")
     (PyVal.str "default") rfl⟩

/-- Claim C9: for every call to get bib by id with a record id and no
explicit format, the method issues a GET whose request URL is the base
URL followed by bibs/{id} (so it ends in bibs/{id}), with query
parameter fields set to default, header Accept application/json, the
fixed timeout, and returns the raw transport response unmodified — no
deserialization and no conversion of non-2xx statuses into errors, since
the result equals whatever the transport oracle returned. -/
theorem bib_get_request_shape (s : SierraSession) (transport : HttpRequest → HttpResponse)
    (bid : String)
    (hb : joinBase s.base_url = s.base_url)
    (hAcc : getHeader s.headers "Accept" = some "application/json") :
    s.bib_get_by_id transport (.str bid) (.str "default") (.str "json") =
      (.ok (transport (bibRequest s bid)), [bibRequest s bid]) ∧
    (bibRequest s bid).url = s.base_url ++ ("bibs/" ++ bid) ∧
    (bibRequest s bid).method = .GET ∧
    (bibRequest s bid).params = [("fields", PyVal.str "default")] ∧
    getHeader (bibRequest s bid).headers "Accept" = some "application/json" ∧
    (bibRequest s bid).timeout = some TIMEOUT := by
  refine ⟨rfl, ?_, rfl, rfl, hAcc, rfl⟩
  show joinBase s.base_url ++ ("bibs/" ++ bid) = s.base_url ++ ("bibs/" ++ bid)
  rw [hb]

/-- Witness for claim C9: the call for record id 10000002 on a concrete
session, with a transport that answers 404 — returned as-is. -/
theorem bib_get_request_shape_witness :
    demoSession.bib_get_by_id demoTransport (.str "10000002") (.str "default") (.str "json") =
      (.ok (demoTransport (bibRequest demoSession "10000002")),
       [bibRequest demoSession "10000002"]) ∧
    (bibRequest demoSession "10000002").url = demoBase ++ ("bibs/" ++ "10000002") ∧
    (bibRequest demoSession "10000002").method = .GET ∧
    (bibRequest demoSession "10000002").params = [("fields", PyVal.str "default")] ∧
    getHeader (bibRequest demoSession "10000002").headers "Accept" =
      some "application/json" ∧
    (bibRequest demoSession "10000002").timeout = some TIMEOUT :=
  bib_get_request_shape demoSession demoTransport "10000002" rfl rfl

/-- Claim C10 (implicit): get hold by id performs no argument validation
at all — for every hold id and fields value of any type, the call never
raises InvalidArgument and always proceeds to issue its GET request,
interpolating the hold id into the URL as given — in contrast with
delete hold by id, which rejects a non-integer hold id before any
network call. -/
theorem hold_get_no_validation (s : SierraSession) (transport : HttpRequest → HttpResponse)
    (hid fields response_format hid2 response_format2 : PyVal)
    (hb : joinBase s.base_url = s.base_url)
    (h2 : pyIsInt hid2 = false) :
    s.hold_get_by_id transport hid fields response_format =
      (.ok (transport (holdGetRequest s hid fields response_format)),
       [holdGetRequest s hid fields response_format]) ∧
    (holdGetRequest s hid fields response_format).url =
      s.base_url ++ ("patrons/holds/" ++ pyStr hid) ∧
    s.hold_delete_by_id transport hid2 response_format2 =
      (.error (.typeError "hold id must be an integer"), []) := by
  refine ⟨rfl, ?_, ?_⟩
  · show joinBase s.base_url ++ ("patrons/holds/" ++ pyStr hid) =
      s.base_url ++ ("patrons/holds/" ++ pyStr hid)
    rw [hb]
  · simp [SierraSession.hold_delete_by_id, h2]

/-- Witness for claim C10: a string hold id and an integer fields value
still produce a GET, while delete hold by id rejects a string id with no
request sent. -/
theorem hold_get_no_validation_witness :
    demoSession.hold_get_by_id demoTransport (PyVal.str "abc") (PyVal.int 3)
        (PyVal.str "json") =
      (.ok (demoTransport
          (holdGetRequest demoSession (PyVal.str "abc") (PyVal.int 3) (PyVal.str "json"))),
       [holdGetRequest demoSession (PyVal.str "abc") (PyVal.int 3) (PyVal.str "json")]) ∧
    (holdGetRequest demoSession (PyVal.str "abc") (PyVal.int 3) (PyVal.str "json")).url =
      demoBase ++ ("patrons/holds/" ++ pyStr (PyVal.str "abc")) ∧
    demoSession.hold_delete_by_id demoTransport (PyVal.str "x") (PyVal.str "json") =
      (.error (.typeError "hold id must be an integer"), []) :=
  hold_get_no_validation demoSession demoTransport (PyVal.str "abc") (PyVal.int 3)
    (PyVal.str "json") (PyVal.str "x") (PyVal.str "json") rfl rfl
